import Mathlib

/-!
Shallow embedding of the Roadmap Resolution Pipeline (template matching,
course-code extraction, catalog lookup, model-response parsing and
normalization, merge-and-persist) of the Pathfinity repository.

Programmatic conventions of the embedding:
* JavaScript strings are Lean `String`s; `toLowerCase`/`trim` are modelled
  for the ASCII range by `lowerStr`/`trimStr`.
* Dynamic JavaScript values are the inductive `JsValue`; property reads,
  truthiness (`jsFalsy`), `||` (`jsOr`) and `String(...)` (`jsToString`)
  follow the JavaScript semantics on that fragment.
* Database access, `JSON.parse`, and the generative-model response are
  external collaborators; they enter the embedding as explicit parameters
  (a row oracle `fetch`, a parser `jsonParse`, the response text `aiText`).
* A thrown JavaScript error is `Except.error`; the persisted store is an
  explicit `DbState` threaded through `generateAndSaveRoadmap`.
-/

/-- ASCII whitespace test modelling the characters JavaScript `trim` and the
regex class matched by the source strip in practice (space, tab, CR, LF, FF, VT). -/
def isWsChar (c : Char) : Bool :=
  c = ' ' || c = '\t' || c = '\n' || c = '\r' || c = '\x0b' || c = '\x0c'

/-- ASCII uppercase-letter test, the regex class used by the source. -/
def isUpperChar (c : Char) : Bool := 'A' ≤ c && c ≤ 'Z'

/-- ASCII digit test, the regex class used by the source. -/
def isDigitChar (c : Char) : Bool := '0' ≤ c && c ≤ '9'

/-- Lower-case one ASCII character; other characters are unchanged
(model of JavaScript `toLowerCase` restricted to ASCII). -/
def lcChar (c : Char) : Char :=
  if isUpperChar c then Char.ofNat (c.toNat + 32) else c

/-- Model of `s.toLowerCase()` on the ASCII range. -/
def lowerStr (s : String) : String := String.mk (s.data.map lcChar)

/-- Drop whitespace from both ends of a character list. -/
def trimChars (l : List Char) : List Char :=
  ((l.dropWhile isWsChar).reverse.dropWhile isWsChar).reverse

/-- Model of `s.trim()`. -/
def trimStr (s : String) : String := String.mk (trimChars s.data)

/-- Does the first list occur as a leading segment of the second? -/
def listStarts : List Char → List Char → Bool
  | [], _ => true
  | _ :: _, [] => false
  | a :: as, b :: bs => a = b && listStarts as bs

/-- Does the first list occur contiguously inside the second
(the semantics of JavaScript `String.prototype.includes`)? -/
def listContains (needle : List Char) : List Char → Bool
  | [] => listStarts needle []
  | c :: cs => listStarts needle (c :: cs) || listContains needle cs

/-- Model of `hay.includes(needle)` for JavaScript strings. -/
def strIncludes (hay needle : String) : Bool := listContains needle.data hay.data

/-- Dynamic JavaScript values, as far as the pipeline manipulates them:
`undefined`, `null`, booleans, (integral) numbers, strings, arrays and
plain objects given as ordered key/value lists. -/
inductive JsValue where
  | undefined : JsValue
  | null : JsValue
  | boolean : Bool → JsValue
  | number : Int → JsValue
  | str : String → JsValue
  | arr : List JsValue → JsValue
  | obj : List (String × JsValue) → JsValue

/-- JavaScript falsiness on the modelled fragment: `undefined`, `null`,
`false`, `0` and the empty string are falsy, everything else truthy. -/
def jsFalsy : JsValue → Bool
  | .undefined => true
  | .null => true
  | .boolean b => !b
  | .number n => n == 0
  | .str s => s == ""
  | .arr _ => false
  | .obj _ => false

/-- JavaScript `a || b` on values. -/
def jsOr (a b : JsValue) : JsValue := if jsFalsy a then b else a

/-- Look a key up in an object's field list (objects keep unique keys,
so the first hit is the binding). -/
def objLookup (fields : List (String × JsValue)) (k : String) : Option JsValue :=
  match fields with
  | [] => none
  | (k', v) :: rest => if k' = k then some v else objLookup rest k

/-- JavaScript property assignment `o[k] = v` on an object's field list:
an existing binding is updated in place, a new key is appended. -/
def objSet (fields : List (String × JsValue)) (k : String) (v : JsValue) :
    List (String × JsValue) :=
  match fields with
  | [] => [(k, v)]
  | (k', v') :: rest =>
      if k' = k then (k, v) :: rest else (k', v') :: objSet rest k v

/-- Property read `v.k` on a value that is not `null`/`undefined`:
objects yield the binding or `undefined`; primitives and arrays yield
`undefined` for the (non-index) keys the pipeline reads. -/
def jsGetD (v : JsValue) (k : String) : JsValue :=
  match v with
  | .obj fields => (objLookup fields k).getD .undefined
  | _ => .undefined

mutual
/-- JavaScript `String(v)` on the modelled fragment: primitives print the
usual way, arrays join their stringified elements with commas (with
`null`/`undefined` elements printing as empty), objects print as
`[object Object]`. -/
def jsToString : JsValue → String
  | .undefined => "undefined"
  | .null => "null"
  | .boolean b => if b then "true" else "false"
  | .number n => toString n
  | .str s => s
  | .arr l => String.intercalate ("," ) (jsToStrings l)
  | .obj _ => "[object Object]"

/-- Elementwise stringification used by array join: `null` and `undefined`
elements become the empty string. -/
def jsToStrings : List JsValue → List String
  | [] => []
  | v :: vs =>
      (match v with
       | .null => ""
       | .undefined => ""
       | w => jsToString w) :: jsToStrings vs
end

/-- One course slot of a pathway template (`{ name, credits }`). -/
structure CourseSlot where
  name : String
  credits : Int
deriving DecidableEq

/-- One semester of a pathway template. -/
structure Semester where
  semester_name : String
  credits : Int
  courses : List CourseSlot
deriving DecidableEq

/-- One year of a pathway template. -/
structure Year where
  year_number : Int
  semesters : List Semester
deriving DecidableEq

/-- A degree pathway template as loaded from the static catalog. -/
structure PathwayTemplate where
  program_name : String
  institution : String
  total_credits : Int
  years : List Year
deriving DecidableEq

/-- Tier 1 of the matcher: the template's `program_name`, lower-cased and
trimmed, equals the normalized input. -/
def tier1B (n : String) (t : PathwayTemplate) : Bool :=
  trimStr (lowerStr t.program_name) == n

/-- Tier 2 of the matcher: the template's lower-cased (NOT trimmed)
`program_name` contains the normalized input as a substring. -/
def tier2B (n : String) (t : PathwayTemplate) : Bool :=
  strIncludes (lowerStr t.program_name) n

/-- Tier 3 of the matcher: the normalized input contains the template's
lower-cased (NOT trimmed) `program_name` as a substring. -/
def tier3B (n : String) (t : PathwayTemplate) : Bool :=
  strIncludes n (lowerStr t.program_name)

/-- `findMatchingPathway` from the source: normalize the input by
lower-casing and trimming, then three sequential first-match passes over
the catalog (exact equality, template-contains-input, input-contains-template). -/
def findMatchingPathway (programName : String) (templates : List PathwayTemplate) :
    Option PathwayTemplate :=
  let normalized := trimStr (lowerStr programName)
  match templates.find? (tier1B normalized) with
  | some t => some t
  | none =>
      match templates.find? (tier2B normalized) with
      | some t => some t
      | none => templates.find? (tier3B normalized)

/-- Attempt the anchored pattern `[A-Z]+\s+[0-9]+[A-Z]*` at the head of a
character list; on success return the matched characters and the rest.
The four character classes are pairwise disjoint, so maximal munch agrees
with the backtracking regex engine. -/
def matchCode (l : List Char) : Option (List Char × List Char) :=
  let (u, r1) := l.span isUpperChar
  if u.isEmpty then none
  else
    let (w, r2) := r1.span isWsChar
    if w.isEmpty then none
    else
      let (d, r3) := r2.span isDigitChar
      if d.isEmpty then none
      else
        let (t, r4) := r3.span isUpperChar
        some (u ++ w ++ d ++ t, r4)

/-- Global scan for `([A-Z]+)\s+(\d+[A-Z]*)` as the JavaScript regex engine
performs it: repeatedly find the leftmost match, emit it, and continue
after its end. The fuel argument bounds the recursion by the input length. -/
def scanAux : Nat → List Char → List (List Char)
  | 0, _ => []
  | _ + 1, [] => []
  | fuel + 1, c :: cs =>
      match matchCode (c :: cs) with
      | some (m, rest) => m :: scanAux fuel rest
      | none => scanAux fuel cs

/-- All matches of `([A-Z]+)\s+(\d+[A-Z]*)` in a slot name, each trimmed
(the `match.trim()` of the source; a match never has edge whitespace, so
this is the identity in practice, but it is kept for fidelity). -/
def scanCodes (s : String) : List String :=
  (scanAux s.data.length s.data).map (fun m => String.mk (trimChars m))

/-- Insertion-ordered set insertion: the JavaScript `Set.add` followed by
`Array.from` keeps the first occurrence of each element. -/
def setAdd (acc : List String) (x : String) : List String :=
  if x ∈ acc then acc else acc ++ [x]

/-- `extractPathwayCourses` from the source: walk every course slot of the
template tree in order, collect every regex match of
`([A-Z]+)\s+(\d+[A-Z]*)` into an insertion-ordered set, and return it as a
list. A pure function of the template alone. -/
def extractPathwayCourses (t : PathwayTemplate) : List String :=
  (t.years.flatMap fun y =>
    y.semesters.flatMap fun s =>
      s.courses.flatMap fun c => scanCodes c.name).foldl setAdd []

/-- The slot names of a template in traversal order; the extraction result
is determined by this list. -/
def slotNames (t : PathwayTemplate) : List String :=
  t.years.flatMap fun y =>
    y.semesters.flatMap fun s =>
      s.courses.map fun c => c.name

/-- One row of the external `course` table. -/
structure CourseRow where
  campusId : String
  coursePfx : String
  courseNumber : String
  courseTitle : String
  courseDesc : Option String
  numUnits : Int
deriving DecidableEq

/-- The enrichment record the lookup builds per course code. -/
structure Enrichment where
  code : String
  title : String
  description : Option String
  units : Int
deriving DecidableEq

/-- Parse one candidate code against the anchored regex
`^([A-Z]+)\s+(\d+[A-Z]*)$`, returning the captured (letters, number)
pair; malformed codes yield `none`. -/
def parseCode (code : String) : Option (String × String) :=
  let l := code.data
  let (u, r1) := l.span isUpperChar
  if u.isEmpty then none
  else
    let (w, r2) := r1.span isWsChar
    if w.isEmpty then none
    else
      let (d, r3) := r2.span isDigitChar
      if d.isEmpty then none
      else
        let (t, r4) := r3.span isUpperChar
        if r4.isEmpty then some (String.mk u, String.mk (d ++ t)) else none

/-- JavaScript `Map.set` on an insertion-ordered association list. -/
def mapSet (m : List (String × Enrichment)) (k : String) (v : Enrichment) :
    List (String × Enrichment) :=
  match m with
  | [] => [(k, v)]
  | (k', v') :: rest =>
      if k' = k then (k, v) :: rest else (k', v') :: mapSet rest k v

/-- `getPathwayCoursesFromDB` from the source. The database call issued once
per parsed code (`select … where campusId = … limit 1000`) is modelled by
the oracle `fetch campusId i`, where `i` is the index of the loop
iteration; `Except.error` models the call throwing. A throwing call is
caught inside the loop (`try`/`catch`), logged, and skipped. The rows of a
successful call are filtered in memory against the parsed (letters, number)
pair and folded into the enrichment map. The function is total: no lookup
failure propagates to the caller. -/
def getPathwayCoursesFromDB
    (fetch : String → Nat → Except String (List CourseRow))
    (courseCodes : List String) (campusId : String) :
    List (String × Enrichment) :=
  if courseCodes.isEmpty then []
  else
    let courseQueries := courseCodes.filterMap parseCode
    if courseQueries.isEmpty then []
    else
      courseQueries.enum.foldl
        (fun acc iq =>
          match fetch campusId iq.1 with
          | .error _ => acc
          | .ok rows =>
              let matching := rows.filter fun c =>
                c.coursePfx == iq.2.1 && c.courseNumber == iq.2.2
              matching.foldl
                (fun m c =>
                  let key := c.coursePfx ++ (" ") ++ c.courseNumber
                  mapSet m key ⟨key, c.courseTitle, c.courseDesc, c.numUnits⟩)
                acc)
        []

/-- Coerce one entry of a model-produced `activities`/`milestones` array to a
plain string: bare strings stay, an object whose `text` field is a string
becomes that text, anything else is stringified with `String(...)`. -/
def coerceEntry (v : JsValue) : String :=
  match v with
  | .str s => s
  | .obj fields =>
      match objLookup fields ("text") with
      | some (.str t) => t
      | _ => jsToString (.obj fields)
  | _ => jsToString v

/-- `normalizeStringArray` from the source: a falsy argument yields
`undefined` (`none`); an array is mapped through `coerceEntry` and filtered
to entries whose trimmed form is non-empty; a truthy non-array has no
`.map`, the resulting `TypeError` is caught and `undefined` returned. -/
def normalizeStringArray (a : JsValue) : Option (List String) :=
  if jsFalsy a then none
  else
    match a with
    | .arr l =>
        some ((l.map coerceEntry).filter fun s => !(trimChars s.data).isEmpty)
    | _ => none

/-- The per-semester mutation of the response normalizer
(`s.activities = normalizeStringArray(s.activities) || []` and likewise for
`milestones`). A semester that is `null`/`undefined` raises a `TypeError`
on the property write; writing a property of another primitive raises in
strict mode ('use server' modules are strict); an array semester (property
assignment on an array object) lies outside the modelled fragment and is
mapped to an error as well. -/
def normalizeSemester : JsValue → Except String JsValue
  | .obj fields =>
      let acts := (normalizeStringArray
        ((objLookup fields ("activities")).getD .undefined)).getD []
      let f1 := objSet fields ("activities") (.arr (acts.map .str))
      let mils := (normalizeStringArray
        ((objLookup f1 ("milestones")).getD .undefined)).getD []
      .ok (.obj (objSet f1 ("milestones") (.arr (mils.map .str))))
  | .null => .error ("TypeError: cannot set properties of null")
  | .undefined => .error ("TypeError: cannot set properties of undefined")
  | .arr _ => .error ("unmodelled: property assignment on an array semester")
  | _ => .error ("TypeError: cannot create property on a primitive")

/-- The per-year step of the response normalizer: iterate
`y.semesters || []`, normalizing each semester in place. Reading
`.semesters` of `null`/`undefined` raises; a truthy non-array `semesters`
value cannot be iterated (or iterates string characters, whose property
writes raise) and is mapped to an error; any other year value is left
unchanged. -/
def normalizeYear : JsValue → Except String JsValue
  | .null => .error ("TypeError: cannot read properties of null")
  | .undefined => .error ("TypeError: cannot read properties of undefined")
  | .obj fields =>
      let semsV := (objLookup fields ("semesters")).getD .undefined
      if jsFalsy semsV then .ok (.obj fields)
      else
        match semsV with
        | .arr l =>
            (l.mapM normalizeSemester).map fun l' =>
              .obj (objSet fields ("semesters") (.arr l'))
        | _ => .error ("TypeError: semesters is not iterable")
  | v => .ok v

/-- The response normalization block (`if (parsed && Array.isArray(parsed.years))`):
when the parsed value is truthy and its `years` field is an array, every
year is processed by `normalizeYear`; otherwise the value passes through
unchanged. -/
def normalizeParsed (parsed : JsValue) : Except String JsValue :=
  if jsFalsy parsed then .ok parsed
  else
    match parsed with
    | .obj fields =>
        match objLookup fields ("years") with
        | some (.arr ys) =>
            (ys.mapM normalizeYear).map fun ys' =>
              .obj (objSet fields ("years") (.arr ys'))
        | _ => .ok parsed
    | _ => .ok parsed

/-- Split a character list at the first occurrence of `c`: on success the
first component has no `c` and the second starts with `c`. -/
def splitAtFirst (c : Char) : List Char → Option (List Char × List Char)
  | [] => none
  | x :: xs =>
      if x = c then some ([], x :: xs)
      else (splitAtFirst c xs).map fun pr => (x :: pr.1, pr.2)

/-- The substring selected by `text.match(/\{[\s\S]*\}/)`: the greedy regex
matches from the first opening brace to the LAST closing brace of the whole
text (when a closing brace follows the first opening one), not the first
balanced group. -/
def jsMatchBraces (text : String) : Option String :=
  match splitAtFirst ('\x7b') text.data with
  | none => none
  | some (_, r) =>
      match splitAtFirst ('\x7d') r.reverse with
      | none => none
      | some (_, s) => some (String.mk s.reverse)

/-- `processPathwayWithAI` from the source, downstream of the model call:
extract the brace-delimited substring of the response text (throwing when
there is none), parse it with the external `JSON.parse` (modelled by the
`jsonParse` parameter; `none` models a parse throw), and normalize the
activities/milestones arrays of the parsed value. -/
def processPathwayWithAI (jsonParse : String → Option JsValue)
    (aiText : String) : Except String JsValue :=
  match jsMatchBraces aiText with
  | none => .error ("No JSON found in AI response")
  | some sub =>
      match jsonParse sub with
      | none => .error ("SyntaxError: JSON.parse failed")
      | some parsed => normalizeParsed parsed

/-- One row of the external `campus` table. -/
structure CampusRow where
  id : String
  name : String
  aliases : List String
deriving DecidableEq

/-- One row of the external `profile` table. `none` models SQL `NULL`;
the roadmap column is a nullable JSON document. -/
structure ProfileRow where
  id : Nat
  college : Option String
  program : Option String
  career : Option String
  interests : Option (List String)
  skills : Option (List String)
  roadmap : Option JsValue
  updatedAt : Nat

/-- The store visible to the pipeline: the `profile` and `campus` tables
(course rows live behind the lookup oracle). -/
structure DbState where
  profiles : List ProfileRow
  campuses : List CampusRow

/-- Outcome of one invocation of the entry operation: the thrown-or-ok
result, the store after the run, and whether the generative model was
invoked. -/
structure RunResult where
  outcome : Except String Unit
  db : DbState
  modelCalled : Bool

/-- JavaScript falsiness of a nullable text column (`NULL` and the empty
string are falsy). -/
def optFalsy (o : Option String) : Bool := o.getD ("") == ""

/-- `getCampusInfo` from the source: first row whose `id` equals the
argument; failing that, the first row whose name or one of whose aliases
matches case-insensitively; failing that, a thrown not-found error. -/
def getCampusInfo (campuses : List CampusRow) (campusNameOrId : String) :
    Except String CampusRow :=
  match (campuses.filter fun c => c.id == campusNameOrId).head? with
  | some c => .ok c
  | none =>
      match (campuses.filter fun c =>
          lowerStr c.name == lowerStr campusNameOrId
            || c.aliases.any fun a => lowerStr a == lowerStr campusNameOrId).head? with
      | some c => .ok c
      | none => .error ("Campus not found")

/-- The combined write `update profile set roadmap = rm, updatedAt = now
where id = pid`. -/
def updateProfileRoadmap (db : DbState) (pid : Nat) (rm : Option JsValue)
    (now : Nat) : DbState :=
  { db with
    profiles := db.profiles.map fun p =>
      if p.id == pid then { p with roadmap := rm, updatedAt := now } else p }

/-- The destructuring `const { years, ...otherFields } = processedRoadmap`:
an object splits into its `years` binding (or `undefined`) and its
remaining own fields; `null`/`undefined` throw a `TypeError`; an array
contributes its index-keyed elements and a string its index-keyed
characters to the rest object; other primitives contribute nothing. -/
def destructureRoadmap : JsValue → Except String (JsValue × List (String × JsValue))
  | .obj fields =>
      .ok ((objLookup fields ("years")).getD .undefined,
        fields.filter fun kv => kv.1 ≠ "years")
  | .null => .error ("TypeError: cannot destructure null")
  | .undefined => .error ("TypeError: cannot destructure undefined")
  | .arr l => .ok (.undefined, (l.enum.map fun iv => (toString iv.1, iv.2)))
  | .str s => .ok (.undefined,
      (s.data.enum.map fun ic => (toString ic.1, JsValue.str (String.mk [ic.2]))))
  | _ => .ok (.undefined, [])

/-- The object literal building `finalRoadmap`: the fallback-merged top
fields are written first, then `...otherFields` is spread over them
(later writes win, so a field present on the parsed response— even a falsy
one— overwrites its fallback), and `years: years || []` is written last. -/
def buildFinalRoadmap (processed : JsValue) (tpl : PathwayTemplate)
    (campusInfo : CampusRow) (profileData : ProfileRow)
    (otherFields : List (String × JsValue)) (yearsV : JsValue) : JsValue :=
  let o1 := objSet [] ("program_name")
    (jsOr (jsGetD processed ("program_name")) (.str tpl.program_name))
  let o2 := objSet o1 ("institution")
    (jsOr (jsGetD processed ("institution")) (.str campusInfo.name))
  let o3 := objSet o2 ("total_credits")
    (jsOr (jsGetD processed ("total_credits")) (.number tpl.total_credits))
  let o4 := objSet o3 ("career_goal")
    (match profileData.career with
     | some c => if c = "" then .undefined else .str c
     | none => .undefined)
  let o5 := objSet o4 ("interests")
    (match profileData.interests with
     | some l => .arr (l.map .str)
     | none => .undefined)
  let o6 := objSet o5 ("skills")
    (match profileData.skills with
     | some l => .arr (l.map .str)
     | none => .undefined)
  let o7 := otherFields.foldl (fun acc kv => objSet acc kv.1 kv.2) o6
  .obj (objSet o7 ("years") (jsOr yearsV (.arr [])))

/-- `generateAndSaveRoadmap` from the source, the entry operation of the
pipeline. External collaborators appear as parameters: the template
catalog (read from a static file by the source), the course-row oracle
`fetch`, the `JSON.parse` model `jsonParse`, the model's response text
`aiText`, and the clock value `now` used for `new Date()`. The returned
`RunResult` carries the thrown-or-ok outcome, the store after the run, and
whether control reached the generative-model call. -/
def generateAndSaveRoadmap (db : DbState) (templates : List PathwayTemplate)
    (fetch : String → Nat → Except String (List CourseRow))
    (jsonParse : String → Option JsValue) (aiText : String) (now : Nat)
    (profileId : Nat) : RunResult :=
  match (db.profiles.filter fun p => p.id == profileId).head? with
  | none => ⟨.error ("Profile not found"), db, false⟩
  | some profileData =>
      if optFalsy profileData.college || optFalsy profileData.program then
        ⟨.error ("Profile is missing required fields: college or program"), db, false⟩
      else
        match getCampusInfo db.campuses (profileData.college.getD ("")) with
        | .error e => ⟨.error e, db, false⟩
        | .ok campusInfo =>
            if campusInfo.id ≠ "uh_manoa" then
              ⟨.ok (), updateProfileRoadmap db profileId none now, false⟩
            else
              match findMatchingPathway (profileData.program.getD ("")) templates with
              | none => ⟨.ok (), updateProfileRoadmap db profileId none now, false⟩
              | some matchingPathway =>
                  let pathwayCourses := extractPathwayCourses matchingPathway
                  let _courseData :=
                    getPathwayCoursesFromDB fetch pathwayCourses campusInfo.id
                  match processPathwayWithAI jsonParse aiText with
                  | .error e => ⟨.error e, db, true⟩
                  | .ok processedRoadmap =>
                      match destructureRoadmap processedRoadmap with
                      | .error e => ⟨.error e, db, true⟩
                      | .ok (yearsV, otherFields) =>
                          let finalRoadmap := buildFinalRoadmap processedRoadmap
                            matchingPathway campusInfo profileData otherFields yearsV
                          ⟨.ok (),
                            updateProfileRoadmap db profileId (some finalRoadmap) now,
                            true⟩

/-- Observation helper: the roadmap column of the (first) profile row with
the given id after a run. -/
def roadmapOf (db : DbState) (pid : Nat) : Option (Option JsValue) :=
  ((db.profiles.filter fun p => p.id == pid).head?).map fun p => p.roadmap

/-- Observation helper: the updatedAt column of the (first) profile row
with the given id. -/
def updatedAtOf (db : DbState) (pid : Nat) : Option Nat :=
  ((db.profiles.filter fun p => p.id == pid).head?).map fun p => p.updatedAt

/-- Scan for the close of a brace group opened `d` times, returning the
characters up to and including the balancing close. Helper for the
spec-side reading of the parse heuristic. -/
def balancedScan : Nat → List Char → Option (List Char)
  | _, [] => none
  | d, c :: cs =>
      if c = '\x7d' then
        if d = 1 then some [c] else (balancedScan (d - 1) cs).map (c :: ·)
      else if c = '\x7b' then (balancedScan (d + 1) cs).map (c :: ·)
      else (balancedScan d cs).map (c :: ·)

/-- Written from the spec's words, for comparison with `jsMatchBraces`
(the code's behaviour): "parsing takes the first balanced-brace JSON
object substring found" — the substring running from the first opening
brace to its matching (depth-balanced) closing brace. -/
def specFirstBalancedObject (text : String) : Option String :=
  match splitAtFirst ('\x7b') text.data with
  | none => none
  | some (_, c :: cs) => (balancedScan 1 cs).map fun m => String.mk (c :: m)
  | some (_, []) => none

/-- C1 (amended part): the matcher returns a template iff some template
passes one of the three tiers, where tier 1 compares the lower-cased AND
trimmed template name, but tiers 2 and 3 test containment against the
lower-cased, UNtrimmed template name; the hit is the first template in
catalog order of the earliest non-empty tier. -/
theorem findMatchingPathway_characterization (p : String) (ts : List PathwayTemplate) :
    ((findMatchingPathway p ts).isSome ↔
      ∃ t ∈ ts,
        tier1B (trimStr (lowerStr p)) t = true ∨
        tier2B (trimStr (lowerStr p)) t = true ∨
        tier3B (trimStr (lowerStr p)) t = true) ∧
    (∀ t, findMatchingPathway p ts = some t →
      ts.find? (tier1B (trimStr (lowerStr p))) = some t ∨
      (ts.find? (tier1B (trimStr (lowerStr p))) = none ∧
        ts.find? (tier2B (trimStr (lowerStr p))) = some t) ∨
      (ts.find? (tier1B (trimStr (lowerStr p))) = none ∧
        ts.find? (tier2B (trimStr (lowerStr p))) = none ∧
        ts.find? (tier3B (trimStr (lowerStr p))) = some t)) := by
  simp only [findMatchingPathway]
  generalize trimStr (lowerStr p) = n
  constructor
  · constructor
    · intro hs
      cases h1 : ts.find? (tier1B n) with
      | some t =>
          exact ⟨t, List.mem_of_find?_eq_some h1, Or.inl (List.find?_some h1)⟩
      | none =>
          rw [h1] at hs
          cases h2 : ts.find? (tier2B n) with
          | some t =>
              exact ⟨t, List.mem_of_find?_eq_some h2,
                Or.inr (Or.inl (List.find?_some h2))⟩
          | none =>
              rw [h2] at hs
              cases h3 : ts.find? (tier3B n) with
              | some t =>
                  exact ⟨t, List.mem_of_find?_eq_some h3,
                    Or.inr (Or.inr (List.find?_some h3))⟩
              | none => rw [h3] at hs; simp at hs
    · rintro ⟨t, ht, htier⟩
      cases h1 : ts.find? (tier1B n) with
      | some u => rfl
      | none =>
          cases h2 : ts.find? (tier2B n) with
          | some u => rfl
          | none =>
              have h1' := List.find?_eq_none.mp h1
              have h2' := List.find?_eq_none.mp h2
              rcases htier with h | h | h
              · exact absurd h (by simpa using h1' t ht)
              · exact absurd h (by simpa using h2' t ht)
              · show (ts.find? (tier3B n)).isSome = true
                rw [List.find?_isSome]
                exact ⟨t, ht, h⟩
  · intro t hmt
    cases h1 : ts.find? (tier1B n) with
    | some u =>
        rw [h1] at hmt
        exact Or.inl hmt
    | none =>
        rw [h1] at hmt
        cases h2 : ts.find? (tier2B n) with
        | some u =>
            rw [h2] at hmt
            exact Or.inr (Or.inl ⟨rfl, hmt⟩)
        | none =>
            rw [h2] at hmt
            exact Or.inr (Or.inr ⟨rfl, rfl, hmt⟩)

/-- C1 counterexample: with the single template named " CS " (edge
whitespace), the input "xcs y" contains the template's lower-cased AND
trimmed name "cs", so the claim requires a match — but the code, which
does not trim the template name in the containment tiers, returns none. -/
theorem findMatchingPathway_trim_counterexample :
    findMatchingPathway ("xcs y") [⟨" CS ", "Inst", 120, []⟩] = none ∧
    strIncludes (trimStr (lowerStr ("xcs y"))) (trimStr (lowerStr (" CS "))) = true := by
  decide

/-- Splitting at the first occurrence of a character decomposes the list:
the part before has no occurrence, and the remainder starts with it. -/
theorem splitAtFirst_some (c : Char) :
    ∀ l p r, splitAtFirst c l = some (p, r) →
      l = p ++ r ∧ c ∉ p ∧ ∃ t, r = c :: t := by
  intro l
  induction l with
  | nil => intro p r h; simp [splitAtFirst] at h
  | cons x xs ih =>
      intro p r h
      by_cases hx : x = c
      · subst hx
        simp only [splitAtFirst, if_pos rfl, Option.some.injEq, Prod.mk.injEq] at h
        obtain ⟨rfl, rfl⟩ := h
        exact ⟨rfl, by simp, xs, rfl⟩
      · simp only [splitAtFirst, if_neg hx] at h
        cases hsp : splitAtFirst c xs with
        | none => rw [hsp] at h; simp at h
        | some pr =>
            rw [hsp] at h
            simp only [Option.map_some', Option.some.injEq, Prod.mk.injEq] at h
            obtain ⟨hp, hr⟩ := h
            obtain ⟨hxs, hcp, t, ht⟩ := ih pr.1 pr.2 (by rw [hsp])
            subst hp
            subst hr
            refine ⟨by rw [List.cons_append, ← hxs], ?_, t, ht⟩
            intro hmem
            rcases List.mem_cons.mp hmem with h' | h'
            · exact hx h'.symm
            · exact hcp h'

/-- C8 (amended): a successful brace extraction takes the substring running
from the FIRST opening brace to the LAST closing brace of the whole
response text (no opening brace occurs before it, no closing brace after
it), and the synthesizer hands exactly that substring to `JSON.parse` —
not the first balanced-brace object. -/
theorem jsMatchBraces_firstToLast (text sub : String)
    (h : jsMatchBraces text = some sub) :
    (∃ pre post mid, text.data = pre ++ sub.data ++ post ∧
      ('\x7b') ∉ pre ∧ ('\x7d') ∉ post ∧
      sub.data = ('\x7b') :: (mid ++ [('\x7d')])) ∧
    ∀ jsonParse, processPathwayWithAI jsonParse text =
      (match jsonParse sub with
       | none => .error ("SyntaxError: JSON.parse failed")
       | some parsed => normalizeParsed parsed) := by
  refine ⟨?_, fun jp => by simp only [processPathwayWithAI, h]⟩
  unfold jsMatchBraces at h
  cases h1 : splitAtFirst ('\x7b') text.data with
  | none => rw [h1] at h; simp at h
  | some pr =>
      obtain ⟨p1, p2⟩ := pr
      rw [h1] at h
      dsimp only at h
      obtain ⟨htext, hnopre, t, ht⟩ := splitAtFirst_some _ _ _ _ h1
      cases h2 : splitAtFirst ('\x7d') p2.reverse with
      | none => rw [h2] at h; simp at h
      | some qs =>
          obtain ⟨q1, q2⟩ := qs
          rw [h2] at h
          dsimp only at h
          simp only [Option.some.injEq] at h
          obtain ⟨hrev, hnoq, u, hu⟩ := splitAtFirst_some _ _ _ _ h2
          subst h
          have hsplit : p2 = q2.reverse ++ q1.reverse := by
            have hc := congrArg List.reverse hrev
            simpa [List.reverse_append] using hc
          have hq2 : q2.reverse = u.reverse ++ [('\x7d')] := by
            rw [hu]; simp
          cases hur : u.reverse with
          | nil =>
              exfalso
              rw [hur] at hq2
              have hx : ('\x7b') :: t = q2.reverse ++ q1.reverse := by
                rw [← ht]; exact hsplit
              rw [hq2] at hx
              simp only [List.nil_append, List.singleton_append, List.cons.injEq] at hx
              exact absurd hx.1 (by decide)
          | cons a w =>
              rw [hur] at hq2
              have hx : ('\x7b') :: t = q2.reverse ++ q1.reverse := by
                rw [← ht]; exact hsplit
              rw [hq2] at hx
              simp only [List.cons_append, List.cons.injEq] at hx
              obtain ⟨ha, -⟩ := hx
              refine ⟨p1, q1.reverse, w, ?_, hnopre, ?_, ?_⟩
              · show text.data = p1 ++ (String.mk q2.reverse).data ++ q1.reverse
                rw [htext, hsplit]
                simp [List.append_assoc]
              · intro hmem
                exact hnoq (List.mem_reverse.mp hmem)
              · show (String.mk q2.reverse).data = ('\x7b') :: (w ++ [('\x7d')])
                rw [show (String.mk q2.reverse).data = q2.reverse from rfl, hq2, ← ha]
                simp

/-- C8 counterexample: on a response containing two complete JSON objects,
the code extracts the greedy span covering BOTH objects (first opening to
last closing brace), while the claim's first-balanced-object reading
selects the first object alone; a parser accepting exactly that first
object makes the synthesizer fail. -/
theorem jsMatchBraces_counterexample :
    jsMatchBraces ("\x7b\"a\":1\x7d \x7b\"b\":2\x7d")
      = some ("\x7b\"a\":1\x7d \x7b\"b\":2\x7d") ∧
    specFirstBalancedObject ("\x7b\"a\":1\x7d \x7b\"b\":2\x7d")
      = some ("\x7b\"a\":1\x7d") ∧
    ("\x7b\"a\":1\x7d \x7b\"b\":2\x7d") ≠ ("\x7b\"a\":1\x7d") ∧
    processPathwayWithAI
      (fun s => if s = ("\x7b\"a\":1\x7d") then some (.obj []) else none)
      ("\x7b\"a\":1\x7d \x7b\"b\":2\x7d")
      = .error ("SyntaxError: JSON.parse failed") := by
  exact ⟨by decide, by decide, by decide, rfl⟩

/-- Witness for the C8 amended theorem at the concrete response "x{y}z". -/
theorem jsMatchBraces_firstToLast_witness :
    ∃ pre post mid, ("x\x7by\x7dz").data = pre ++ ("\x7by\x7d").data ++ post ∧
      ('\x7b') ∉ pre ∧ ('\x7d') ∉ post ∧
      ("\x7by\x7d").data = ('\x7b') :: (mid ++ [('\x7d')]) :=
  (jsMatchBraces_firstToLast ("x\x7by\x7dz") ("\x7by\x7d") (by decide)).1

/-- Inserting into the insertion-ordered set adds the element to the
underlying finite set. -/
theorem toFinset_setAdd (acc : List String) (x : String) :
    (setAdd acc x).toFinset = insert x acc.toFinset := by
  by_cases hx : x ∈ acc
  · ext a
    simp only [setAdd, if_pos hx, List.mem_toFinset, Finset.mem_insert]
    constructor
    · exact Or.inr
    · rintro (rfl | h)
      · exact hx
      · exact h
  · ext a
    simp only [setAdd, if_neg hx, List.mem_toFinset, Finset.mem_insert,
      List.mem_append, List.mem_singleton]
    tauto

/-- Folding the insertion-ordered set insertion over a list collects
exactly the union of the accumulator and the list, as finite sets. -/
theorem toFinset_foldl_setAdd (l : List String) :
    ∀ acc : List String, (l.foldl setAdd acc).toFinset = acc.toFinset ∪ l.toFinset := by
  induction l with
  | nil => intro acc; simp
  | cons x xs ih =>
      intro acc
      rw [List.foldl_cons, ih, toFinset_setAdd, List.toFinset_cons]
      ext a
      simp

/-- The extraction is the insertion-ordered deduplication of the regex
matches of the traversal-ordered slot names. -/
theorem extractPathwayCourses_eq_slotNames (t : PathwayTemplate) :
    extractPathwayCourses t = ((slotNames t).flatMap scanCodes).foldl setAdd [] := by
  unfold extractPathwayCourses slotNames
  simp only [List.flatMap_assoc, List.flatMap_map]

/-- C9: course-code extraction is a pure function of the template (its type
takes nothing else), and its output viewed as a set is determined by the
multiset of slot names alone: templates whose slot-name lists are
permutations of one another extract the same set of codes. Determinism of
repeated runs is the reflexive instance. -/
theorem extractPathwayCourses_set_determined (t₁ t₂ : PathwayTemplate)
    (h : (slotNames t₁).Perm (slotNames t₂)) :
    (extractPathwayCourses t₁).toFinset = (extractPathwayCourses t₂).toFinset := by
  rw [extractPathwayCourses_eq_slotNames, extractPathwayCourses_eq_slotNames,
    toFinset_foldl_setAdd, toFinset_foldl_setAdd]
  have hp := h.flatMap_right scanCodes
  ext a
  simp [List.mem_toFinset, hp.mem_iff]

/-- Course slots used by the C9 witness templates. -/
def c9Tpl1 : PathwayTemplate :=
  ⟨"CS", "I", 120, [⟨1, [⟨"fall_semester", 8, [⟨"ICS 111", 4⟩, ⟨"MATH 241", 4⟩]⟩]⟩]⟩

/-- A template with the same slot names in a different arrangement. -/
def c9Tpl2 : PathwayTemplate :=
  ⟨"CS", "I", 120,
    [⟨1, [⟨"spring_semester", 4, [⟨"MATH 241", 4⟩]⟩,
          ⟨"fall_semester", 4, [⟨"ICS 111", 4⟩]⟩]⟩]⟩

/-- Witness for C9 at two concrete templates whose slot-name lists are
permutations of each other. -/
theorem extractPathwayCourses_set_determined_witness :
    (slotNames c9Tpl1).Perm (slotNames c9Tpl2) ∧
    (extractPathwayCourses c9Tpl1).toFinset = (extractPathwayCourses c9Tpl2).toFinset :=
  ⟨by decide, extractPathwayCourses_set_determined c9Tpl1 c9Tpl2 (by decide)⟩

/-- C10: a database fault in any single per-code lookup is absorbed inside
the loop: the run behaves exactly as if that one call had returned no
rows, so every other code is still looked up and the enrichment map of the
non-failing codes is returned. The lookup's return type is total
(`List (String × Enrichment)` with no error component), so no failure
propagates to the caller. -/
theorem getPathwayCoursesFromDB_fault_isolated
    (fetch : String → Nat → Except String (List CourseRow))
    (codes : List String) (campusId : String) (i₀ : Nat) (e : String)
    (hf : fetch campusId i₀ = .error e) :
    getPathwayCoursesFromDB fetch codes campusId =
      getPathwayCoursesFromDB
        (fun cid i => if cid = campusId ∧ i = i₀ then .ok [] else fetch cid i)
        codes campusId := by
  unfold getPathwayCoursesFromDB
  by_cases hc : codes.isEmpty
  · simp [hc]
  · simp only [hc, Bool.false_eq_true, if_false]
    by_cases hq : (codes.filterMap parseCode).isEmpty
    · simp [hq]
    · simp only [hq, Bool.false_eq_true, if_false]
      apply List.foldl_ext
      intro acc iq hiq
      by_cases hi : iq.1 = i₀
      · rw [hi, hf]
        simp
      · simp [hi]

/-- The concrete faulty oracle for the C10 witness: the first lookup throws,
the second returns one ICS 211 row. -/
def c10Fetch : String → Nat → Except String (List CourseRow) :=
  fun _ i =>
    if i = 0 then .error ("connection reset")
    else .ok [⟨"uh_manoa", "ICS", "211", "Algorithms", none, 4⟩]

/-- Witness for C10: with two extracted codes and a first lookup that
throws, the run equals the run where that call returned no rows — the
second code is still enriched. -/
theorem getPathwayCoursesFromDB_fault_isolated_witness :
    c10Fetch ("uh_manoa") 0 = .error ("connection reset") ∧
    getPathwayCoursesFromDB c10Fetch [("ICS 111"), ("ICS 211")] ("uh_manoa") =
      getPathwayCoursesFromDB
        (fun cid i => if cid = ("uh_manoa") ∧ i = 0 then .ok [] else c10Fetch cid i)
        [("ICS 111"), ("ICS 211")] ("uh_manoa") :=
  ⟨rfl, getPathwayCoursesFromDB_fault_isolated c10Fetch [("ICS 111"), ("ICS 211")]
    ("uh_manoa") 0 ("connection reset") rfl⟩

/-- Looking up the key just written returns the written value. -/
theorem objLookup_objSet_self (o : List (String × JsValue)) (k : String) (v : JsValue) :
    objLookup (objSet o k v) k = some v := by
  induction o with
  | nil => simp [objSet, objLookup]
  | cons kv rest ih =>
      obtain ⟨a, b⟩ := kv
      by_cases h : a = k
      · simp [objSet, h, objLookup]
      · simp [objSet, h, objLookup, ih]

/-- Writing one key leaves every other key's binding unchanged. -/
theorem objLookup_objSet_other (o : List (String × JsValue)) (k k' : String)
    (v : JsValue) (h : k' ≠ k) :
    objLookup (objSet o k v) k' = objLookup o k' := by
  induction o with
  | nil => simp [objSet, objLookup, Ne.symm h]
  | cons kv rest ih =>
      obtain ⟨a, b⟩ := kv
      by_cases ha : a = k
      · subst ha
        simp [objSet, objLookup, Ne.symm h]
      · simp [objSet, ha, objLookup, ih]

/-- Entries surviving the normalizer's filter have non-empty trim. -/
theorem normalizeStringArray_entries (a : JsValue) (l : List String)
    (h : normalizeStringArray a = some l) :
    ∀ x ∈ l, (trimChars x.data).isEmpty = false := by
  unfold normalizeStringArray at h
  by_cases hf : jsFalsy a
  · simp [hf] at h
  · simp only [hf, Bool.false_eq_true, if_false] at h
    cases a with
    | arr xs =>
      simp only [Option.some.injEq] at h
      subst h
      intro x hx
      have hm := (List.mem_filter.mp hx).2
      simpa using hm
    | undefined => simp at h
    | null => simp at h
    | boolean b => simp at h
    | number n => simp at h
    | str s => simp at h
    | obj fs => simp at h

/-- C5 (amended): every entry of the `activities` and `milestones` arrays of
a semester processed by the response normalizer is a string whose trimmed
form is non-empty; entries are kept verbatim (not trimmed), and no minimum
count is enforced — the arrays may be shorter than two. -/
theorem normalizeSemester_entry_shape (fields : List (String × JsValue)) :
    ∃ f', normalizeSemester (.obj fields) = .ok (.obj f') ∧
      (∃ l : List String,
        objLookup f' ("activities") = some (.arr (l.map JsValue.str)) ∧
        ∀ x ∈ l, (trimChars x.data).isEmpty = false) ∧
      (∃ l : List String,
        objLookup f' ("milestones") = some (.arr (l.map JsValue.str)) ∧
        ∀ x ∈ l, (trimChars x.data).isEmpty = false) := by
  refine ⟨_, rfl, ?_, ?_⟩
  · rw [objLookup_objSet_other _ _ _ _ (by decide), objLookup_objSet_self]
    refine ⟨_, rfl, ?_⟩
    cases hna : normalizeStringArray ((objLookup fields ("activities")).getD .undefined) with
    | none => simp
    | some l =>
        simp only [Option.getD_some]
        exact normalizeStringArray_entries _ _ hna
  · rw [objLookup_objSet_self]
    refine ⟨_, rfl, ?_⟩
    cases hnm : normalizeStringArray
        ((objLookup (objSet fields ("activities")
          (.arr (((normalizeStringArray
            ((objLookup fields ("activities")).getD .undefined)).getD []).map JsValue.str)))
          ("milestones")).getD .undefined) with
    | none => simp
    | some l =>
        simp only [Option.getD_some]
        exact normalizeStringArray_entries _ _ hnm

/-- Witness for the C5 amended theorem at a concrete semester whose
model-supplied activities hold one untrimmed string and one blank. -/
theorem normalizeSemester_entry_shape_witness :
    ∃ f', normalizeSemester (.obj [("activities", .arr [.str (" a "), .str ("  ")])])
        = .ok (.obj f') ∧
      (∃ l : List String,
        objLookup f' ("activities") = some (.arr (l.map JsValue.str)) ∧
        ∀ x ∈ l, (trimChars x.data).isEmpty = false) ∧
      (∃ l : List String,
        objLookup f' ("milestones") = some (.arr (l.map JsValue.str)) ∧
        ∀ x ∈ l, (trimChars x.data).isEmpty = false) :=
  normalizeSemester_entry_shape [("activities", .arr [.str (" a "), .str ("  ")])]

/-- Written from the spec's words (§4.3): each entry is coerced to a plain
string, "accepting either a bare string or an object carrying a `text`
field; anything else is stringified". -/
def specCoerceEntry (v : JsValue) : String :=
  match v with
  | .str s => s
  | .obj fs =>
      match objLookup fs ("text") with
      | some (.str t) => t
      | _ => jsToString (.obj fs)
  | _ => jsToString v

/-- The code's entry coercion agrees with the spec's description. -/
theorem coerceEntry_eq_spec (v : JsValue) : coerceEntry v = specCoerceEntry v := by
  cases v <;> rfl

/-- C7: for a semester object, the normalizer rewrites each of the
`activities`/`milestones` fields as the claim describes: an array field is
mapped entrywise by the spec's coercion (bare string kept, object with a
string `text` field becomes that text, anything else stringified) and
filtered to entries with non-empty trim; an absent field becomes the empty
list rather than an error. (`normalizeParsed` applies this transform to
every semester of every year when the parsed `years` field is an array.) -/
theorem normalizeSemester_field_normalization (fields : List (String × JsValue)) :
    ∃ f', normalizeSemester (.obj fields) = .ok (.obj f') ∧
      (∀ l : List JsValue, objLookup fields ("activities") = some (.arr l) →
        objLookup f' ("activities") =
          some (.arr (((l.map specCoerceEntry).filter
            fun s => !(trimChars s.data).isEmpty).map JsValue.str))) ∧
      (objLookup fields ("activities") = none →
        objLookup f' ("activities") = some (.arr [])) ∧
      (∀ l : List JsValue, objLookup fields ("milestones") = some (.arr l) →
        objLookup f' ("milestones") =
          some (.arr (((l.map specCoerceEntry).filter
            fun s => !(trimChars s.data).isEmpty).map JsValue.str))) ∧
      (objLookup fields ("milestones") = none →
        objLookup f' ("milestones") = some (.arr [])) := by
  have hmap : coerceEntry = specCoerceEntry := funext coerceEntry_eq_spec
  refine ⟨_, rfl, ?_, ?_, ?_, ?_⟩
  · intro l hl
    rw [objLookup_objSet_other _ _ _ _ (by decide), objLookup_objSet_self, hl]
    simp only [Option.getD_some, normalizeStringArray, jsFalsy, Bool.false_eq_true,
      if_false, hmap]
  · intro h0
    rw [objLookup_objSet_other _ _ _ _ (by decide), objLookup_objSet_self, h0]
    rfl
  · intro l hl
    rw [objLookup_objSet_self,
      objLookup_objSet_other _ _ _ _ (by decide), hl]
    simp only [Option.getD_some, normalizeStringArray, jsFalsy, Bool.false_eq_true,
      if_false, hmap]
  · intro h0
    rw [objLookup_objSet_self,
      objLookup_objSet_other _ _ _ _ (by decide), h0]
    rfl

/-- The concrete semester fields for the C7 witness: a bare string, an
object carrying text, a null (stringified), and a blank entry that the
filter drops; no milestones field. -/
def c7Fields : List (String × JsValue) :=
  [("activities", .arr [.str ("ok"), .obj [("text", .str (" hi "))], .null, .str ("  ")])]

/-- Witness for C7 at `c7Fields`: the normalized activities are exactly the
spec-coerced, filtered entries, and the absent milestones become []. -/
theorem normalizeSemester_field_normalization_witness :
    ∃ f', normalizeSemester (.obj c7Fields) = .ok (.obj f') ∧
      objLookup f' ("activities")
        = some (.arr [.str ("ok"), .str (" hi "), .str ("null")]) ∧
      objLookup f' ("milestones") = some (.arr []) := by
  obtain ⟨f', hf, hact, -, -, hmil⟩ := normalizeSemester_field_normalization c7Fields
  refine ⟨f', hf, ?_, hmil rfl⟩
  rw [hact [.str ("ok"), .obj [("text", .str (" hi "))], .null, .str ("  ")] rfl]
  rfl

/-- Spreading fields none of which carry the key leaves its binding alone. -/
theorem objLookup_foldl_objSet_not_mem (l : List (String × JsValue)) :
    ∀ (o : List (String × JsValue)) (k : String), (∀ kv ∈ l, kv.1 ≠ k) →
      objLookup (l.foldl (fun acc kv => objSet acc kv.1 kv.2) o) k = objLookup o k := by
  induction l with
  | nil => intro o k _; rfl
  | cons kv rest ih =>
      intro o k h
      rw [List.foldl_cons,
        ih _ _ (fun x hx => h x (List.mem_cons_of_mem _ hx)),
        objLookup_objSet_other _ _ _ _ (Ne.symm (h kv (List.mem_cons_self _ _)))]

/-- Spreading an object's fields (unique keys) over an accumulator: a key
bound by the spread wins, any other key keeps its accumulator binding —
the JavaScript object-spread semantics. -/
theorem objLookup_foldl_objSet (l : List (String × JsValue)) :
    ∀ (o : List (String × JsValue)) (k : String), (l.map Prod.fst).Nodup →
      objLookup (l.foldl (fun acc kv => objSet acc kv.1 kv.2) o) k =
        (match objLookup l k with
         | some v => some v
         | none => objLookup o k) := by
  induction l with
  | nil => intro o k _; rfl
  | cons kv rest ih =>
      intro o k hnd
      obtain ⟨a, b⟩ := kv
      rw [List.foldl_cons]
      simp only [List.map_cons, List.nodup_cons] at hnd
      obtain ⟨hna, hnd'⟩ := hnd
      by_cases hak : a = k
      · subst hak
        have hrest : ∀ kv' ∈ rest, kv'.1 ≠ a := by
          intro kv' hkv' heq
          exact hna (heq ▸ List.mem_map_of_mem Prod.fst hkv')
        rw [objLookup_foldl_objSet_not_mem rest _ _ hrest, objLookup_objSet_self]
        simp [objLookup]
      · rw [ih _ _ hnd']
        cases hr : objLookup rest k with
        | some v => simp [objLookup, hak, hr]
        | none =>
            simp only [objLookup, hak, hr, if_false]
            exact objLookup_objSet_other _ _ _ _ (fun hc => hak hc.symm)

/-- Removing the `bad`-keyed bindings does not change the lookup of any
other key (the rest-object of the destructuring). -/
theorem objLookup_filter_ne (fields : List (String × JsValue)) (bad k : String)
    (hk : k ≠ bad) :
    objLookup (fields.filter fun kv => kv.1 ≠ bad) k = objLookup fields k := by
  induction fields with
  | nil => rfl
  | cons kv rest ih =>
      obtain ⟨a, b⟩ := kv
      simp only [ne_eq, decide_not] at ih ⊢
      by_cases hb : a = bad
      · subst hb
        rw [List.filter_cons_of_neg (by simp)]
        rw [ih]
        show objLookup rest k = objLookup ((a, b) :: rest) k
        simp only [objLookup]
        rw [if_neg (fun h : a = k => hk h.symm)]
      · rw [List.filter_cons_of_pos (by simp [hb])]
        by_cases hak : a = k
        · simp [objLookup, hak]
        · simp [objLookup, hak, ih]

/-- C6: when the resolved campus is not the supported one, or no template
matches the program, the operation persists a null roadmap with a fresh
timestamp in one combined update, returns successfully, and (in the
unsupported-campus case) never reaches the generative-model call. -/
theorem generateAndSaveRoadmap_short_circuit
    (db : DbState) (templates : List PathwayTemplate)
    (fetch : String → Nat → Except String (List CourseRow))
    (jsonParse : String → Option JsValue) (aiText : String) (now profileId : Nat)
    (profileData : ProfileRow) (campusInfo : CampusRow)
    (h1 : (db.profiles.filter fun p => p.id == profileId).head? = some profileData)
    (h2 : optFalsy profileData.college = false)
    (h3 : optFalsy profileData.program = false)
    (h4 : getCampusInfo db.campuses (profileData.college.getD ("")) = .ok campusInfo)
    (hcase : campusInfo.id ≠ "uh_manoa" ∨
      (campusInfo.id = "uh_manoa" ∧
        findMatchingPathway (profileData.program.getD ("")) templates = none)) :
    (generateAndSaveRoadmap db templates fetch jsonParse aiText now profileId).outcome
        = .ok () ∧
    (generateAndSaveRoadmap db templates fetch jsonParse aiText now profileId).db
        = updateProfileRoadmap db profileId none now ∧
    (campusInfo.id ≠ "uh_manoa" →
      (generateAndSaveRoadmap db templates fetch jsonParse aiText now profileId).modelCalled
        = false) ∧
    ∀ q ∈ (generateAndSaveRoadmap db templates fetch jsonParse aiText now profileId).db.profiles,
      q.id = profileId → q.roadmap = none ∧ q.updatedAt = now := by
  have hrun : generateAndSaveRoadmap db templates fetch jsonParse aiText now profileId
      = ⟨.ok (), updateProfileRoadmap db profileId none now, false⟩ := by
    rcases hcase with hc | ⟨hc, hm⟩
    · simp [generateAndSaveRoadmap, h1, h2, h3, h4, hc]
    · simp [generateAndSaveRoadmap, h1, h2, h3, h4, hc, hm]
  refine ⟨by rw [hrun], by rw [hrun], fun _ => by rw [hrun], ?_⟩
  intro q hq hqid
  rw [hrun] at hq
  simp only [updateProfileRoadmap, List.mem_map] at hq
  obtain ⟨p0, hp0, rfl⟩ := hq
  by_cases hif : (p0.id == profileId) = true
  · simp [hif]
  · exfalso
    simp only [hif, Bool.false_eq_true, if_false] at hqid
    exact hif (by simpa using hqid)

/-- C2: when the looked-up profile is missing its college or program field,
or the run reaches synthesis and the response has no brace-delimited
substring or that substring fails to parse, the operation throws and the
store is exactly as before the call — the stored roadmap and timestamp are
untouched. -/
theorem generateAndSaveRoadmap_fatal_no_write
    (db : DbState) (templates : List PathwayTemplate)
    (fetch : String → Nat → Except String (List CourseRow))
    (jsonParse : String → Option JsValue) (aiText : String) (now profileId : Nat)
    (profileData : ProfileRow)
    (h1 : (db.profiles.filter fun p => p.id == profileId).head? = some profileData)
    (hcase :
      (optFalsy profileData.college || optFalsy profileData.program) = true ∨
      (optFalsy profileData.college = false ∧ optFalsy profileData.program = false ∧
        ∃ campusInfo,
          getCampusInfo db.campuses (profileData.college.getD ("")) = .ok campusInfo ∧
          campusInfo.id = "uh_manoa" ∧
          (∃ tpl, findMatchingPathway (profileData.program.getD ("")) templates
            = some tpl) ∧
          (jsMatchBraces aiText = none ∨
            (∃ sub, jsMatchBraces aiText = some sub ∧ jsonParse sub = none)))) :
    (∃ e, (generateAndSaveRoadmap db templates fetch jsonParse aiText now profileId).outcome
        = .error e) ∧
    (generateAndSaveRoadmap db templates fetch jsonParse aiText now profileId).db = db := by
  rcases hcase with hf | ⟨h2, h3, campusInfo, h4, h5, ⟨tpl, h6⟩, hparse⟩
  · have hrun : generateAndSaveRoadmap db templates fetch jsonParse aiText now profileId
        = ⟨.error ("Profile is missing required fields: college or program"), db, false⟩ := by
      simp [generateAndSaveRoadmap, h1, hf]
    exact ⟨⟨_, by rw [hrun]⟩, by rw [hrun]⟩
  · rcases hparse with hjm | ⟨sub, hjm, hjp⟩
    · have hrun : generateAndSaveRoadmap db templates fetch jsonParse aiText now profileId
          = ⟨.error ("No JSON found in AI response"), db, true⟩ := by
        simp [generateAndSaveRoadmap, h1, h2, h3, h4, h5, h6,
          processPathwayWithAI, hjm]
      exact ⟨⟨_, by rw [hrun]⟩, by rw [hrun]⟩
    · have hrun : generateAndSaveRoadmap db templates fetch jsonParse aiText now profileId
          = ⟨.error ("SyntaxError: JSON.parse failed"), db, true⟩ := by
        simp [generateAndSaveRoadmap, h1, h2, h3, h4, h5, h6,
          processPathwayWithAI, hjm, hjp]
      exact ⟨⟨_, by rw [hrun]⟩, by rw [hrun]⟩

/-- C3 (amended): on the synthesis path, the persisted `years` tree is the
parsed (and normalized) response's `years` value carried through verbatim —
its truthy value if present, else an empty array — with no structural
comparison against the matched template's years/semesters/slots. -/
theorem generateAndSaveRoadmap_years_passthrough
    (db : DbState) (templates : List PathwayTemplate)
    (fetch : String → Nat → Except String (List CourseRow))
    (jsonParse : String → Option JsValue) (aiText : String) (now profileId : Nat)
    (profileData : ProfileRow) (campusInfo : CampusRow) (tpl : PathwayTemplate)
    (fs : List (String × JsValue))
    (h1 : (db.profiles.filter fun p => p.id == profileId).head? = some profileData)
    (h2 : optFalsy profileData.college = false)
    (h3 : optFalsy profileData.program = false)
    (h4 : getCampusInfo db.campuses (profileData.college.getD ("")) = .ok campusInfo)
    (h5 : campusInfo.id = "uh_manoa")
    (h6 : findMatchingPathway (profileData.program.getD ("")) templates = some tpl)
    (h7 : processPathwayWithAI jsonParse aiText = .ok (.obj fs)) :
    (generateAndSaveRoadmap db templates fetch jsonParse aiText now profileId).outcome
        = .ok () ∧
    ∃ F, (generateAndSaveRoadmap db templates fetch jsonParse aiText now profileId).db
        = updateProfileRoadmap db profileId (some (.obj F)) now ∧
      objLookup F ("years")
        = some (jsOr ((objLookup fs ("years")).getD .undefined) (.arr [])) := by
  have hrun : generateAndSaveRoadmap db templates fetch jsonParse aiText now profileId
      = ⟨.ok (), updateProfileRoadmap db profileId
          (some (buildFinalRoadmap (.obj fs) tpl campusInfo profileData
            (fs.filter fun kv => kv.1 ≠ "years")
            ((objLookup fs ("years")).getD .undefined))) now, true⟩ := by
    simp [generateAndSaveRoadmap, h1, h2, h3, h4, h5, h6, h7, destructureRoadmap]
  constructor
  · rw [hrun]
  · rw [hrun]
    exact ⟨_, rfl, objLookup_objSet_self _ _ _⟩

/-- C4 (amended): on the synthesis path, `program_name` and `total_credits`
of the persisted document equal the parsed response's binding whenever the
field is present on the parsed object — even when present-but-falsy, since
the object spread follows the fallback fields — and otherwise fall back to
the matched template's value; `institution` likewise prefers the response
binding but falls back directly to the resolved campus's name: the
template's institution is never consulted. -/
theorem generateAndSaveRoadmap_merge_fields
    (db : DbState) (templates : List PathwayTemplate)
    (fetch : String → Nat → Except String (List CourseRow))
    (jsonParse : String → Option JsValue) (aiText : String) (now profileId : Nat)
    (profileData : ProfileRow) (campusInfo : CampusRow) (tpl : PathwayTemplate)
    (fs : List (String × JsValue))
    (h1 : (db.profiles.filter fun p => p.id == profileId).head? = some profileData)
    (h2 : optFalsy profileData.college = false)
    (h3 : optFalsy profileData.program = false)
    (h4 : getCampusInfo db.campuses (profileData.college.getD ("")) = .ok campusInfo)
    (h5 : campusInfo.id = "uh_manoa")
    (h6 : findMatchingPathway (profileData.program.getD ("")) templates = some tpl)
    (h7 : processPathwayWithAI jsonParse aiText = .ok (.obj fs))
    (hnodup : (fs.map Prod.fst).Nodup) :
    (generateAndSaveRoadmap db templates fetch jsonParse aiText now profileId).outcome
        = .ok () ∧
    ∃ F, (generateAndSaveRoadmap db templates fetch jsonParse aiText now profileId).db
        = updateProfileRoadmap db profileId (some (.obj F)) now ∧
      objLookup F ("program_name")
        = some ((objLookup fs ("program_name")).getD (.str tpl.program_name)) ∧
      objLookup F ("institution")
        = some ((objLookup fs ("institution")).getD (.str campusInfo.name)) ∧
      objLookup F ("total_credits")
        = some ((objLookup fs ("total_credits")).getD (.number tpl.total_credits)) := by
  have hndf : ((fs.filter fun kv => kv.1 ≠ "years").map Prod.fst).Nodup :=
    hnodup.sublist ((List.filter_sublist fs).map Prod.fst)
  have hrun : generateAndSaveRoadmap db templates fetch jsonParse aiText now profileId
      = ⟨.ok (), updateProfileRoadmap db profileId
          (some (buildFinalRoadmap (.obj fs) tpl campusInfo profileData
            (fs.filter fun kv => kv.1 ≠ "years")
            ((objLookup fs ("years")).getD .undefined))) now, true⟩ := by
    simp [generateAndSaveRoadmap, h1, h2, h3, h4, h5, h6, h7, destructureRoadmap]
  refine ⟨by rw [hrun], ?_⟩
  rw [hrun]
  refine ⟨_, rfl, ?_, ?_, ?_⟩
  · rw [objLookup_objSet_other _ _ _ _ (by decide),
      objLookup_foldl_objSet _ _ _ hndf,
      objLookup_filter_ne _ _ _ (by decide)]
    cases hk : objLookup fs ("program_name") with
    | some v => simp
    | none =>
        simp only [Option.getD_none]
        rw [objLookup_objSet_other _ _ _ _ (by decide),
          objLookup_objSet_other _ _ _ _ (by decide),
          objLookup_objSet_other _ _ _ _ (by decide),
          objLookup_objSet_other _ _ _ _ (by decide),
          objLookup_objSet_other _ _ _ _ (by decide),
          objLookup_objSet_self]
        simp [jsGetD, hk, jsOr, jsFalsy]
  · rw [objLookup_objSet_other _ _ _ _ (by decide),
      objLookup_foldl_objSet _ _ _ hndf,
      objLookup_filter_ne _ _ _ (by decide)]
    cases hk : objLookup fs ("institution") with
    | some v => simp
    | none =>
        simp only [Option.getD_none]
        rw [objLookup_objSet_other _ _ _ _ (by decide),
          objLookup_objSet_other _ _ _ _ (by decide),
          objLookup_objSet_other _ _ _ _ (by decide),
          objLookup_objSet_other _ _ _ _ (by decide),
          objLookup_objSet_self]
        simp [jsGetD, hk, jsOr, jsFalsy]
  · rw [objLookup_objSet_other _ _ _ _ (by decide),
      objLookup_foldl_objSet _ _ _ hndf,
      objLookup_filter_ne _ _ _ (by decide)]
    cases hk : objLookup fs ("total_credits") with
    | some v => simp
    | none =>
        simp only [Option.getD_none]
        rw [objLookup_objSet_other _ _ _ _ (by decide),
          objLookup_objSet_other _ _ _ _ (by decide),
          objLookup_objSet_other _ _ _ _ (by decide),
          objLookup_objSet_self]
        simp [jsGetD, hk, jsOr, jsFalsy]

/-- Concrete supported campus for the worked examples. -/
def egCampus : CampusRow := ⟨"uh_manoa", "Campus Name", []⟩

/-- Concrete profile resolving to the supported campus, with a stored prior
roadmap. -/
def egProfile : ProfileRow :=
  ⟨1, some ("uh_manoa"), some ("CS"), none, none, none, some (.str ("old")), 5⟩

/-- Concrete store holding that profile and campus. -/
def egDb : DbState := ⟨[egProfile], [egCampus]⟩

/-- Concrete template matched exactly by the profile's program. -/
def egTpl : PathwayTemplate :=
  ⟨"CS", "Template Inst", 120, [⟨1, [⟨"fall_semester", 15, [⟨"Elective", 3⟩]⟩]⟩]⟩

/-- Course oracle returning no rows (never failing). -/
def egFetch : String → Nat → Except String (List CourseRow) := fun _ _ => .ok []

/-- A parser accepting exactly the empty object. -/
def egParseEmpty : String → Option JsValue :=
  fun s => if s = ("\x7b\x7d") then some (.obj []) else none

/-- Witness for C2, exercising the no-JSON-in-response branch on the
synthesis path: the run throws and the store (prior roadmap included) is
exactly as before. -/
theorem generateAndSaveRoadmap_fatal_no_write_witness :
    (∃ e, (generateAndSaveRoadmap egDb [egTpl] egFetch (fun _ => none)
      ("no json here") 7 1).outcome = .error e) ∧
    (generateAndSaveRoadmap egDb [egTpl] egFetch (fun _ => none)
      ("no json here") 7 1).db = egDb :=
  generateAndSaveRoadmap_fatal_no_write egDb [egTpl] egFetch (fun _ => none)
    ("no json here") 7 1 egProfile rfl
    (Or.inr ⟨rfl, rfl, egCampus, rfl, rfl, ⟨egTpl, by decide⟩, Or.inl (by decide)⟩)

/-- Unsupported campus for the C6 witness. -/
def egCampusHilo : CampusRow := ⟨"uh_hilo", "UH Hilo", []⟩

/-- Profile resolving to the unsupported campus, with a stored prior
roadmap. -/
def egProfileHilo : ProfileRow :=
  ⟨2, some ("uh_hilo"), some ("CS"), none, none, none, some (.str ("old")), 5⟩

/-- Store for the C6 witness. -/
def egDbHilo : DbState := ⟨[egProfileHilo], [egCampusHilo]⟩

/-- Witness for C6 at the unsupported campus: null roadmap persisted, fresh
timestamp, success, and no model call. -/
theorem generateAndSaveRoadmap_short_circuit_witness :
    (generateAndSaveRoadmap egDbHilo [egTpl] egFetch (fun _ => none) ("x") 9 2).outcome
        = .ok () ∧
    (generateAndSaveRoadmap egDbHilo [egTpl] egFetch (fun _ => none) ("x") 9 2).db
        = updateProfileRoadmap egDbHilo 2 none 9 ∧
    (generateAndSaveRoadmap egDbHilo [egTpl] egFetch (fun _ => none) ("x") 9 2).modelCalled
        = false := by
  have h := generateAndSaveRoadmap_short_circuit egDbHilo [egTpl] egFetch (fun _ => none)
    ("x") 9 2 egProfileHilo egCampusHilo rfl rfl rfl rfl (Or.inl (by decide))
  exact ⟨h.1, h.2.1, h.2.2.1 (by decide)⟩

/-- Witness for the C3 amended theorem: with the parsed response the empty
object, the persisted years field is the defensive empty array. -/
theorem generateAndSaveRoadmap_years_passthrough_witness :
    (generateAndSaveRoadmap egDb [egTpl] egFetch egParseEmpty ("\x7b\x7d") 7 1).outcome
        = .ok () ∧
    ∃ F, (generateAndSaveRoadmap egDb [egTpl] egFetch egParseEmpty ("\x7b\x7d") 7 1).db
        = updateProfileRoadmap egDb 1 (some (.obj F)) 7 ∧
      objLookup F ("years")
        = some (jsOr ((objLookup ([] : List (String × JsValue)) ("years")).getD .undefined)
            (.arr [])) :=
  generateAndSaveRoadmap_years_passthrough egDb [egTpl] egFetch egParseEmpty
    ("\x7b\x7d") 7 1 egProfile egCampus egTpl [] rfl rfl rfl rfl rfl (by decide) rfl

/-- A parser producing an object with a present-but-empty institution. -/
def egParseInst : String → Option JsValue :=
  fun s => if s = ("\x7bi\x7d") then some (.obj [("institution", .str (""))]) else none

/-- Witness for the C4 amended theorem at a response whose institution is
present but empty: the empty string wins over both fallbacks, and the
absent program_name/total_credits fall back to template values (institution
would have fallen back to the campus name). -/
theorem generateAndSaveRoadmap_merge_fields_witness :
    (generateAndSaveRoadmap egDb [egTpl] egFetch egParseInst ("\x7bi\x7d") 7 1).outcome
        = .ok () ∧
    ∃ F, (generateAndSaveRoadmap egDb [egTpl] egFetch egParseInst ("\x7bi\x7d") 7 1).db
        = updateProfileRoadmap egDb 1 (some (.obj F)) 7 ∧
      objLookup F ("program_name")
        = some ((objLookup [("institution", JsValue.str (""))] ("program_name")).getD
            (.str egTpl.program_name)) ∧
      objLookup F ("institution")
        = some ((objLookup [("institution", JsValue.str (""))] ("institution")).getD
            (.str egCampus.name)) ∧
      objLookup F ("total_credits")
        = some ((objLookup [("institution", JsValue.str (""))] ("total_credits")).getD
            (.number egTpl.total_credits)) :=
  generateAndSaveRoadmap_merge_fields egDb [egTpl] egFetch egParseInst
    ("\x7bi\x7d") 7 1 egProfile egCampus egTpl [("institution", .str (""))]
    rfl rfl rfl rfl rfl (by decide) rfl (by simp)

/-- C3 counterexample: the parsed response `\x7b\x7d` is accepted (parse and
normalization succeed, run returns ok), yet the persisted roadmap has zero
years while the matched template has one — synthesis enforces no
structural preservation. -/
theorem persisted_years_counterexample :
    processPathwayWithAI egParseEmpty ("\x7b\x7d") = .ok (.obj []) ∧
    (generateAndSaveRoadmap egDb [egTpl] egFetch egParseEmpty ("\x7b\x7d") 7 1).outcome
        = .ok () ∧
    egTpl.years.length = 1 ∧
    ((roadmapOf (generateAndSaveRoadmap egDb [egTpl] egFetch egParseEmpty
        ("\x7b\x7d") 7 1).db 1).map (Option.map fun rm => jsGetD rm ("years")))
      = some (some (.arr [])) :=
  ⟨rfl, rfl, rfl, rfl⟩

/-- A parser whose accepted object carries no institution field. -/
def egParseNoInst : String → Option JsValue :=
  fun s => if s = ("\x7bn\x7d") then some (.obj []) else none

/-- C4 counterexample: the parsed response has no institution, the matched
template's institution is "Template Inst", yet the persisted institution is
the campus name "Campus Name" — the claimed fallback to the template's
institution does not happen. -/
theorem merge_institution_counterexample :
    (generateAndSaveRoadmap egDb [egTpl] egFetch egParseNoInst ("\x7bn\x7d") 7 1).outcome
        = .ok () ∧
    egTpl.institution = ("Template Inst") ∧
    ((roadmapOf (generateAndSaveRoadmap egDb [egTpl] egFetch egParseNoInst
        ("\x7bn\x7d") 7 1).db 1).map (Option.map fun rm => jsGetD rm ("institution")))
      = some (some (.str ("Campus Name"))) ∧
    ("Campus Name") ≠ ("Template Inst") :=
  ⟨rfl, rfl, rfl, by decide⟩

/-- A parser whose accepted object carries one semester with a single
untrimmed activity and no milestones. -/
def egParseSem : String → Option JsValue :=
  fun s =>
    if s = ("\x7bs\x7d") then
      some (.obj [("years", .arr [.obj [("semesters",
        .arr [.obj [("activities", .arr [.str (" a ")])]])]])])
    else none

/-- C5 counterexample: a successful run persists a semester whose
activities hold a single entry " a " (fewer than two, and not a trimmed
string) and whose milestones are empty — the minimum-two requirement is
not enforced by the code. -/
theorem persisted_semester_counterexample :
    (generateAndSaveRoadmap egDb [egTpl] egFetch egParseSem ("\x7bs\x7d") 7 1).outcome
        = .ok () ∧
    ((roadmapOf (generateAndSaveRoadmap egDb [egTpl] egFetch egParseSem
        ("\x7bs\x7d") 7 1).db 1).map (Option.map fun rm => jsGetD rm ("years")))
      = some (some (.arr [.obj [("semesters", .arr [.obj
          [("activities", .arr [.str (" a ")]), ("milestones", .arr [])]])]])) :=
  ⟨rfl, rfl⟩
